import Mathlib

/-!
Shallow embedding of the `vidok` repository (two Python scripts:
`batch_process.py`, a batch dispatcher for an external video-generation CLI,
and `prepare_prompts.py`, a prompt-generation utility) together with proofs
settling the specification claims.

Modelling conventions:
* Python `dict`s (the Progress Ledger, Failure Ledger and the prompt
  document's keyed mapping) are modelled as insertion-ordered association
  lists `List (String × α)`; assignment replaces in place, fresh keys append
  (Python 3.7+ dict semantics).
* The filesystem is a list of existing paths (`os.path.exists p` becomes
  `fs.contains p`); the external subprocess and the HTTP API are oracles
  (functions from the command / image path to an abstract result).
* JSON optional fields are `Option` values; Python truthiness tests
  (`if job.get('seed'):`) are the `…Truthy` helpers below, which treat
  `None`, `""`, `0` and `False` as absent.
* Timestamps (`time.time()`) are an opaque `now : Nat` parameter; numeric
  job fields are carried opaquely as `Int` (the scripts never compute with
  them, they only test truthiness and stringify).
* Writes to persisted files (`save_json` / `save_data`) are recorded as an
  event list of written contents, so non-mutation claims are statable.
-/

/-! ## Ordered-dictionary model (Python `dict` keyed by strings) -/

/-- Membership test: `k in d` on a Python dict. -/
def dictContains {α : Type} : List (String × α) → String → Bool
  | [], _ => false
  | p :: rest, k => if p.1 = k then true else dictContains rest k

/-- Deletion: `del d[k]` on a Python dict (drops every pair with key `k`). -/
def dictErase {α : Type} : List (String × α) → String → List (String × α)
  | [], _ => []
  | p :: rest, k => if p.1 = k then dictErase rest k else p :: dictErase rest k

/-- Replace the value at an existing key, keeping its position. -/
def dictReplace {α : Type} : List (String × α) → String → α → List (String × α)
  | [], _, _ => []
  | p :: rest, k, v =>
      if p.1 = k then (k, v) :: dictReplace rest k v else p :: dictReplace rest k v

/-- Assignment `d[k] = v`: replace in place when present, else append. -/
def dictSet {α : Type} (m : List (String × α)) (k : String) (v : α) : List (String × α) :=
  if dictContains m k then dictReplace m k v else m ++ [(k, v)]

/-- Lookup `d[k]` / `d.get(k)`. -/
def dictGet? {α : Type} : List (String × α) → String → Option α
  | [], _ => none
  | p :: rest, k => if p.1 = k then some p.2 else dictGet? rest k

/-! ## Shared Python helpers (truthiness, paths) -/

/-- Truthiness of an optional string: `None` and `""` are falsy. -/
def strTruthy : Option String → Bool
  | none => false
  | some s => s ≠ ""

/-- Truthiness of an optional number: `None` and `0` are falsy. -/
def intTruthy : Option Int → Bool
  | none => false
  | some n => n ≠ 0

/-- Truthiness of an optional boolean: `None` and `False` are falsy. -/
def boolTruthy : Option Bool → Bool
  | none => false
  | some b => b

/-- `os.path.isabs`. -/
def isAbsPath (p : String) : Bool := p.startsWith "/"

/-- `os.path.join a b` (POSIX). -/
def joinPath (a b : String) : String :=
  if isAbsPath b then b
  else if a.endsWith "/" ∨ a = "" then a ++ b
  else a ++ "/" ++ b

/-- `os.path.basename`. -/
def basenameOf (p : String) : String := (p.splitOn "/").getLastD p

/-- `Path(p).stem`: final path component without its last extension. -/
def stemOf (p : String) : String :=
  let b := basenameOf p
  let parts := b.splitOn "."
  if parts.length ≤ 1 then b else String.intercalate "." parts.dropLast

/-- Whitespace as recognised by Python `str.strip()` (common subset). -/
def isSpaceChar (c : Char) : Bool :=
  c = ' ' ∨ c = '\t' ∨ c = '\n' ∨ c = '\r'

/-- Python `str.strip()`: drop leading and trailing whitespace. -/
def pyStrip (s : String) : String :=
  String.mk (((s.data.dropWhile isSpaceChar).reverse.dropWhile isSpaceChar).reverse)

/-- The Python chained fallback `a or b or c` on strings. -/
def orFallback (a b c : String) : String :=
  if a ≠ "" then a else if b ≠ "" then b else c

/-! ## `batch_process.py`: data model -/

/-- One record of the Job Store (`config['jobs'][i]`); absent JSON fields
are `none`.  Numbers are carried opaquely as `Int`. -/
structure Job where
  image : Option String := none
  prompt : Option String := none
  negative_prompt : Option String := none
  seed : Option Int := none
  duration : Option Int := none
  steps : Option Int := none
  cfg : Option Int := none
  distilled_cfg : Option Int := none
  cfg_rescale : Option Int := none
  gpu_memory : Option Int := none
  no_teacache : Option Bool := none
  mp4_crf : Option Int := none
  output : Option String := none
deriving Repr, DecidableEq

/-- A Progress Ledger entry (`progress_data[job_key]`). -/
structure ProgressEntry where
  image : Option String
  completed_at : Nat
  status : String
deriving Repr, DecidableEq

/-- A Failure Ledger entry (`failed_data[job_key]`). -/
structure FailureEntry where
  image : Option String
  failed_at : Nat
  error : String
  job : Job
deriving Repr, DecidableEq

/-- What the external process did: normal exit (code, stdout, stderr) or a
raised invocation exception. -/
inductive RawResult where
  | exited (code : Nat) (stdoutS stderrS : String)
  | raised (msg : String)
deriving Repr, DecidableEq

/-- One observation of the external process: wall-clock seconds it would
need, and its result if allowed to finish. -/
structure ExternRun where
  duration : Nat
  result : RawResult
deriving Repr, DecidableEq

/-- Outcome of `run_single_job`: the external command actually invoked
(`none` when validation failed before invocation), the success flag and the
message of the returned pair. -/
structure JobResult where
  cmdRun : Option (List String)
  ok : Bool
  message : String
deriving Repr, DecidableEq

/-- `create_job_key`: `job.get('image', '')`. -/
def create_job_key (job : Job) : String := job.image.getD ""

/-- The hard-coded `timeout=3600` of the `subprocess.run` call. -/
def timeout_seconds : Nat := 3600

/-- The argument list built by `run_single_job` (lines 64–99): base command
plus one optional flag per truthy field, then the output path. -/
def buildCmd (pyExe demo_script : String) (output_dir : Option String) (job : Job) :
    List String :=
  let cmd := [pyExe, demo_script, "--cli",
    "--input_image", job.image.getD "", "--prompt", job.prompt.getD ""]
  let cmd := if strTruthy job.negative_prompt then
    cmd ++ ["--negative_prompt", job.negative_prompt.getD ""] else cmd
  let cmd := if intTruthy job.seed then
    cmd ++ ["--seed", toString (job.seed.getD 0)] else cmd
  let cmd := if intTruthy job.duration then
    cmd ++ ["--length", toString (job.duration.getD 0)] else cmd
  let cmd := if intTruthy job.steps then
    cmd ++ ["--steps", toString (job.steps.getD 0)] else cmd
  let cmd := if intTruthy job.cfg then
    cmd ++ ["--cfg", toString (job.cfg.getD 0)] else cmd
  let cmd := if intTruthy job.distilled_cfg then
    cmd ++ ["--distilled_cfg", toString (job.distilled_cfg.getD 0)] else cmd
  let cmd := if intTruthy job.cfg_rescale then
    cmd ++ ["--cfg_rescale", toString (job.cfg_rescale.getD 0)] else cmd
  let cmd := if intTruthy job.gpu_memory then
    cmd ++ ["--gpu_memory", toString (job.gpu_memory.getD 0)] else cmd
  let cmd := if boolTruthy job.no_teacache then cmd ++ ["--no_teacache"] else cmd
  let cmd := if intTruthy job.mp4_crf then
    cmd ++ ["--mp4_crf", toString (job.mp4_crf.getD 0)] else cmd
  match output_dir with
  | some od => cmd ++ ["--output", joinPath od (stemOf (job.image.getD "") ++ ".mp4")]
  | none =>
      if strTruthy job.output then cmd ++ ["--output", job.output.getD ""] else cmd

/-- `run_single_job` (lines 52–128).  `fs` is the set of existing paths,
`oracle` the behaviour of the external process on a given command line.
GPU-id handling only mutates the child environment and is not modelled. -/
def run_single_job (fs : List String) (oracle : List String → ExternRun)
    (pyExe demo_script : String) (output_dir : Option String) (job : Job) : JobResult :=
  if ¬ (strTruthy job.image && strTruthy job.prompt) then
    ⟨none, false, "Missing image or prompt"⟩
  else if ¬ fs.contains (job.image.getD "") then
    ⟨none, false, "Image file not found: " ++ job.image.getD ""⟩
  else
    let cmd := buildCmd pyExe demo_script output_dir job
    let r := oracle cmd
    if timeout_seconds < r.duration then
      ⟨some cmd, false, "Timeout after 1 hour"⟩
    else
      match r.result with
      | RawResult.exited code o e =>
          if code = 0 then ⟨some cmd, true, "Success"⟩
          else ⟨some cmd, false, orFallback (pyStrip e) (pyStrip o) "Unknown error"⟩
      | RawResult.raised m => ⟨some cmd, false, m⟩

/-- The pending set of one polling cycle (lines 164–168): jobs with a
truthy key that is not yet in the Progress Ledger. -/
def pendingJobs (jobs : List Job) (progress : List (String × ProgressEntry)) : List Job :=
  jobs.filter fun j =>
    decide (create_job_key j ≠ "") && ! dictContains progress (create_job_key j)

/-- Dispatcher state: the in-memory ledgers, the per-file sequences of
persisted writes, the keys submitted to the worker pool, the external
commands actually invoked, and how the loop ended. -/
structure DispatchState where
  progress : List (String × ProgressEntry)
  failed : List (String × FailureEntry)
  progressWrites : List (List (String × ProgressEntry))
  failedWrites : List (List (String × FailureEntry))
  dispatched : List String
  commands : List (List String)
  crashed : Bool
  finished : Bool
deriving Repr, DecidableEq

/-- Ledger update for one completed job (lines 197–225): on success add a
Progress entry and delete any stale Failure entry (flushing the failed
file); on failure add a Failure entry (flushing the failed file); in both
cases the progress file is flushed afterwards. -/
def record_outcome (now : Nat) (job : Job) (res : JobResult) (st : DispatchState) :
    DispatchState :=
  let k := create_job_key job
  if res.ok then
    let progress1 := dictSet st.progress k ⟨job.image, now, "success"⟩
    if dictContains st.failed k then
      let failed1 := dictErase st.failed k
      { st with
        progress := progress1, failed := failed1,
        failedWrites := st.failedWrites ++ [failed1],
        progressWrites := st.progressWrites ++ [progress1] }
    else
      { st with
        progress := progress1,
        progressWrites := st.progressWrites ++ [progress1] }
  else
    let failed1 := dictSet st.failed k ⟨job.image, now, res.message, job⟩
    { st with
      failed := failed1,
      failedWrites := st.failedWrites ++ [failed1],
      progressWrites := st.progressWrites ++ [st.progress] }

/-- Handling of one submitted job: it is dispatched to the pool, its
external invocation (if any) recorded, and its outcome folded into the
ledgers by `record_outcome`. -/
def dispatch_step (fs : List String) (oracle : List String → ExternRun)
    (pyExe demo_script : String) (output_dir : Option String) (now : Nat)
    (st : DispatchState) (job : Job) : DispatchState :=
  let res := run_single_job fs oracle pyExe demo_script output_dir job
  let st1 := { st with
    dispatched := st.dispatched ++ [create_job_key job],
    commands := st.commands ++ (match res.cmdRun with
      | some c => [c]
      | none => []) }
  record_outcome now job res st1

/-- One batch (lines 182–228): every pending job is submitted to the pool
and its outcome processed.  Result handling is serialized on the
dispatcher side, so a sequential fold is faithful up to completion order. -/
def run_pending (fs : List String) (oracle : List String → ExternRun)
    (pyExe demo_script : String) (output_dir : Option String) (now : Nat)
    (pending : List Job) (st : DispatchState) : DispatchState :=
  pending.foldl (dispatch_step fs oracle pyExe demo_script output_dir now) st

/-- The polling loop of `process_jobs` (lines 154–231) over an unchanged
Job Store, with explicit fuel.  Exits: empty job list, empty pending set,
or the dry-run branch — which crashes (unhandled `TypeError` from
`job.get('prompt')[:50]`) when some pending job has no prompt. -/
def process_cycles (fs : List String) (oracle : List String → ExternRun)
    (pyExe demo_script : String) (output_dir : Option String) (now : Nat)
    (dry_run : Bool) (jobs : List Job) : Nat → DispatchState → DispatchState
  | 0, st => st
  | Nat.succ fuel, st =>
    if jobs.isEmpty then { st with finished := true }
    else
      let pending := pendingJobs jobs st.progress
      if pending.isEmpty then { st with finished := true }
      else if dry_run then
        if pending.any (fun j => j.prompt.isNone) then { st with crashed := true }
        else { st with finished := true }
      else
        process_cycles fs oracle pyExe demo_script output_dir now dry_run jobs fuel
          (run_pending fs oracle pyExe demo_script output_dir now pending st)

/-- Initial dispatcher state (lines 147–149): the Progress Ledger starts
empty under force-reprocess, else from the progress file; the Failure
Ledger always starts from the failed file. -/
def initState (force_reprocess : Bool)
    (progressFile : List (String × ProgressEntry))
    (failedFile : List (String × FailureEntry)) : DispatchState :=
  { progress := if force_reprocess then [] else progressFile,
    failed := failedFile,
    progressWrites := [], failedWrites := [],
    dispatched := [], commands := [], crashed := false, finished := false }

/-- `process_jobs` over an unchanged Job Store: load ledgers, run the
polling loop. -/
def process_jobs (fuel : Nat) (fs : List String) (oracle : List String → ExternRun)
    (pyExe demo_script : String) (output_dir : Option String) (now : Nat)
    (jobs : List Job) (force_reprocess dry_run : Bool)
    (progressFile : List (String × ProgressEntry))
    (failedFile : List (String × FailureEntry)) : DispatchState :=
  process_cycles fs oracle pyExe demo_script output_dir now dry_run jobs fuel
    (initState force_reprocess progressFile failedFile)

/-- Content of the progress file after a run: the last flushed snapshot,
or the original file content when nothing was flushed. -/
def persistedProgress (progressFile : List (String × ProgressEntry))
    (st : DispatchState) : List (String × ProgressEntry) :=
  st.progressWrites.getLastD progressFile

/-- Content of the failed file after a run. -/
def persistedFailed (failedFile : List (String × FailureEntry))
    (st : DispatchState) : List (String × FailureEntry) :=
  st.failedWrites.getLastD failedFile

/-- `main` (lines 272–287): an exception escaping `process_jobs` is caught
and turned into `sys.exit(1)`; otherwise the process exits normally. -/
def batch_main_exit (fuel : Nat) (fs : List String) (oracle : List String → ExternRun)
    (pyExe demo_script : String) (output_dir : Option String) (now : Nat)
    (jobs : List Job) (force_reprocess dry_run : Bool)
    (progressFile : List (String × ProgressEntry))
    (failedFile : List (String × FailureEntry)) : Nat :=
  if (process_jobs fuel fs oracle pyExe demo_script output_dir now jobs
      force_reprocess dry_run progressFile failedFile).crashed then 1 else 0

/-- Mutual exclusion of the two ledgers: no Progress key is also a Failure
key. -/
def ledgersExclusive (progress : List (String × ProgressEntry))
    (failed : List (String × FailureEntry)) : Bool :=
  progress.all fun p => ! dictContains failed p.1

/-! ## `prepare_prompts.py`: data model -/

/-- One record of the prompt output document (`data['jobs'][i]`). -/
structure PromptRecord where
  image : Option String := none
  prompt : Option String := none
  duration : Option Int := none
  seed : Option Int := none
deriving Repr, DecidableEq

/-- `load_existing_data` (lines 88–103) applied to a parsed document:
records carrying an `image` field are keyed by it, later duplicates
overwriting earlier ones; records without the field are skipped. -/
def load_item (existing : List (String × PromptRecord)) (item : PromptRecord) :
    List (String × PromptRecord) :=
  match item.image with
  | some img => dictSet existing img item
  | none => existing

/-- The keyed mapping built by `load_existing_data` from the parsed
document. -/
def load_existing_data (docJobs : List PromptRecord) : List (String × PromptRecord) :=
  docJobs.foldl load_item []

/-- `save_data` (lines 131–141): the document written is the dict's value
list (wrapped in a `jobs` object, which we leave implicit). -/
def save_data (data_dict : List (String × PromptRecord)) : List PromptRecord :=
  data_dict.map Prod.snd

/-- The path `clean_missing_images` checks for a record keyed by
`image_path` (lines 112–116). -/
def resolveImagePath (cwd image_path : String) : String :=
  if isAbsPath image_path then image_path else joinPath cwd image_path

/-- `clean_missing_images` (lines 105–129): keep records whose file
exists; in dry-run missing records are kept too (only counted); returns
the cleaned dict and the removed count. -/
def clean_step (fs : List String) (cwd : String) (dry_run : Bool)
    (acc : List (String × PromptRecord) × Nat) (p : String × PromptRecord) :
    List (String × PromptRecord) × Nat :=
  if fs.contains (resolveImagePath cwd p.1) then (acc.1 ++ [p], acc.2)
  else if dry_run then (acc.1 ++ [p], acc.2 + 1)
  else (acc.1, acc.2 + 1)

/-- The pruning fold of `clean_missing_images` over the keyed mapping. -/
def clean_missing_images (fs : List String) (cwd : String)
    (existing_data : List (String × PromptRecord)) (dry_run : Bool) :
    List (String × PromptRecord) × Nat :=
  existing_data.foldl (clean_step fs cwd dry_run) ([], 0)

/-- The fixed literal returned for `prompt_type="product"`. -/
def product_prompt : String :=
  "The product or camera quickly rotates, showcasing product details from different angles."

/-- One response of the external vision API for a given image path. -/
structure ApiResponse where
  status : Nat
  content : String
deriving Repr, DecidableEq

/-- `generate_motion_prompt` (lines 22–86): the product variant returns a
fixed literal without any network call; the general variant performs one
API call and returns the trimmed content on HTTP 200, else `None`.  The
first component records whether the network was used. -/
def generate_motion_prompt (api : String → ApiResponse) (prompt_type image_path : String) :
    Bool × Option String :=
  if prompt_type = "product" then (false, some product_prompt)
  else
    let resp := api image_path
    if resp.status = 200 then (true, some (pyStrip resp.content)) else (true, none)

/-- Prompt Generator run state: the keyed mapping, the sequence of
documents written to the output file, the images for which prompt
generation ran, the API calls made, and the counters of the summary. -/
structure PGState where
  existing : List (String × PromptRecord)
  writes : List (List PromptRecord)
  generated : List String
  api_calls : List String
  new_count : Nat
  skipped_count : Nat
  removed_count : Nat
deriving Repr, DecidableEq

/-- One iteration of the main loop (lines 211–246): skip an already-keyed
image; in dry-run only count; otherwise generate and, on a truthy prompt,
insert the new record and immediately persist the whole mapping. -/
def pg_step (api : String → ApiResponse) (relpath : String → String)
    (default_duration default_seed : Int) (dry_run : Bool) (prompt_type : String)
    (st : PGState) (image_path : String) : PGState :=
  let rel := relpath image_path
  if dictContains st.existing rel then
    { st with skipped_count := st.skipped_count + 1 }
  else if dry_run then
    { st with new_count := st.new_count + 1 }
  else
    let pr := generate_motion_prompt api prompt_type image_path
    let st1 := { st with
      generated := st.generated ++ [image_path],
      api_calls := st.api_calls ++ (if pr.1 then [image_path] else []) }
    match pr.2 with
    | some p =>
        if p ≠ "" then
          let existing1 := dictSet st1.existing rel
            ⟨some rel, some p, some default_duration, some default_seed⟩
          { st1 with
            existing := existing1,
            new_count := st1.new_count + 1,
            writes := st1.writes ++ [save_data existing1] }
        else st1
    | none => st1

/-- State after the load and pruning phases of `main` (lines 187–206): the
document is loaded into a keyed mapping; when it is non-empty the pruning
pass runs, and when it removed records in non-dry-run mode the cleaned
document is saved immediately. -/
def pg_init (fs : List String) (cwd : String) (outputDoc : List PromptRecord)
    (dry_run : Bool) : PGState :=
  let existing0 := load_existing_data outputDoc
  let cleaned := if existing0.isEmpty then (existing0, 0)
    else clean_missing_images fs cwd existing0 dry_run
  let writes0 : List (List PromptRecord) :=
    if cleaned.2 > 0 ∧ ¬ dry_run then [save_data cleaned.1] else []
  ⟨cleaned.1, writes0, [], [], 0, 0, cleaned.2⟩

/-- `main` of `prepare_prompts.py` (lines 143–263) on an unchanged
filesystem snapshot: directory/emptiness guards, load, pruning pass with
its conditional immediate save, then the sequential main pass.
`image_paths` is the glob result, `outputDoc` the parsed output file. -/
def prompt_main (fs : List String) (cwd : String) (api : String → ApiResponse)
    (relpath : String → String) (image_dir_exists : Bool) (image_paths : List String)
    (outputDoc : List PromptRecord) (default_duration default_seed : Int)
    (dry_run : Bool) (prompt_type : String) : PGState :=
  if ¬ image_dir_exists then
    ⟨[], [], [], [], 0, 0, 0⟩
  else if image_paths.isEmpty then
    ⟨[], [], [], [], 0, 0, 0⟩
  else
    image_paths.foldl
      (pg_step api relpath default_duration default_seed dry_run prompt_type)
      (pg_init fs cwd outputDoc dry_run)

/-! ## Concrete fixtures used to instantiate the claims -/

/-- A well-formed job whose image file will be present in `sampleFs`. -/
def sampleJob : Job := { image := some "img.png", prompt := some "p" }

/-- A job with an image key but no prompt field. -/
def sampleNoPrompt : Job := { image := some "a.png" }

/-- Filesystem snapshot containing the sample image. -/
def sampleFs : List String := ["img.png"]

/-- An external process that always succeeds quickly. -/
def sampleOk : List String → ExternRun := fun _ => ⟨10, RawResult.exited 0 "" ""⟩

/-- An external process that always exits non-zero with diagnostic output. -/
def sampleFail : List String → ExternRun := fun _ => ⟨10, RawResult.exited 1 "" "boom"⟩

/-- A vision API that always fails with a server error. -/
def sampleApiDown : String → ApiResponse := fun _ => ⟨500, ""⟩

/-! ## Dictionary lemmas -/

theorem dictContains_replace {α : Type} (m : List (String × α)) (k k' : String) (v : α) :
    dictContains (dictReplace m k v) k' = dictContains m k' := by
  induction m with
  | nil => rfl
  | cons p rest ih =>
    by_cases h : p.1 = k
    · subst h
      simp only [dictReplace, if_pos rfl, dictContains, ih]
    · simp only [dictReplace, if_neg h, dictContains, ih]

theorem dictContains_append {α : Type} (m m' : List (String × α)) (k : String) :
    dictContains (m ++ m') k = (dictContains m k || dictContains m' k) := by
  induction m with
  | nil => rfl
  | cons p rest ih =>
    by_cases h : p.1 = k
    · simp only [List.cons_append, dictContains, if_pos h, Bool.true_or]
    · simp only [List.cons_append, dictContains, if_neg h]
      exact ih

theorem dictContains_set_self {α : Type} (m : List (String × α)) (k : String) (v : α) :
    dictContains (dictSet m k v) k = true := by
  unfold dictSet
  by_cases h : dictContains m k = true
  · rw [if_pos h, dictContains_replace, h]
  · rw [if_neg h, dictContains_append]
    simp [dictContains]

theorem dictContains_set_ne {α : Type} (m : List (String × α)) (k k' : String) (v : α)
    (h : k' ≠ k) : dictContains (dictSet m k v) k' = dictContains m k' := by
  unfold dictSet
  by_cases hc : dictContains m k = true
  · rw [if_pos hc, dictContains_replace]
  · rw [if_neg hc, dictContains_append]
    simp [dictContains, Ne.symm h]

theorem dictContains_erase_self {α : Type} (m : List (String × α)) (k : String) :
    dictContains (dictErase m k) k = false := by
  induction m with
  | nil => rfl
  | cons p rest ih =>
    by_cases h : p.1 = k
    · simp only [dictErase, if_pos h, ih]
    · simp only [dictErase, if_neg h, dictContains, ih, if_neg h]

theorem dictContains_erase_ne {α : Type} (m : List (String × α)) (k k' : String)
    (h : k' ≠ k) : dictContains (dictErase m k) k' = dictContains m k' := by
  induction m with
  | nil => rfl
  | cons p rest ih =>
    by_cases hp : p.1 = k
    · rw [dictErase, if_pos hp, ih, dictContains, if_neg (hp ▸ fun hh : p.1 = k' => h (hh ▸ hp))]
    · rw [dictErase, if_neg hp, dictContains, dictContains, ih]

theorem dictGet?_replace_self {α : Type} (m : List (String × α)) (k : String) (v : α)
    (h : dictContains m k = true) : dictGet? (dictReplace m k v) k = some v := by
  induction m with
  | nil => exact absurd h (by simp [dictContains])
  | cons p rest ih =>
    by_cases hp : p.1 = k
    · simp [dictReplace, hp, dictGet?]
    · rw [dictContains, if_neg hp] at h
      simp only [dictReplace, if_neg hp, dictGet?, if_neg hp, ih h]

theorem dictGet?_append {α : Type} (m m' : List (String × α)) (k : String)
    (h : dictContains m k = false) : dictGet? (m ++ m') k = dictGet? m' k := by
  induction m with
  | nil => rfl
  | cons p rest ih =>
    by_cases hp : p.1 = k
    · rw [dictContains, if_pos hp] at h
      exact absurd h (by simp)
    · rw [dictContains, if_neg hp] at h
      simp only [List.cons_append, dictGet?, if_neg hp]
      exact ih h

theorem dictGet?_set_self {α : Type} (m : List (String × α)) (k : String) (v : α) :
    dictGet? (dictSet m k v) k = some v := by
  unfold dictSet
  by_cases h : dictContains m k = true
  · rw [if_pos h]
    exact dictGet?_replace_self m k v h
  · rw [if_neg h, dictGet?_append m [(k, v)] k (by simpa using h)]
    simp [dictGet?]

theorem dictSet_of_not_contains {α : Type} (m : List (String × α)) (k : String) (v : α)
    (h : dictContains m k = false) : dictSet m k v = m ++ [(k, v)] := by
  unfold dictSet
  rw [if_neg (by simp [h])]

theorem dictContains_iff_mem {α : Type} (m : List (String × α)) (k : String) :
    dictContains m k = true ↔ k ∈ m.map Prod.fst := by
  induction m with
  | nil => simp [dictContains]
  | cons p rest ih =>
    by_cases h : p.1 = k
    · simp [dictContains, h]
    · simp only [dictContains, if_neg h, List.map_cons, List.mem_cons, ih]
      exact ⟨fun hm => Or.inr hm, fun hm => hm.elim (fun hh => absurd hh.symm h) id⟩

theorem ledgersExclusive_iff (P : List (String × ProgressEntry))
    (F : List (String × FailureEntry)) :
    ledgersExclusive P F = true ↔
      ∀ k, dictContains P k = true → dictContains F k = false := by
  unfold ledgersExclusive
  rw [List.all_eq_true]
  constructor
  · intro h k hk
    rcases (dictContains_iff_mem P k).mp hk with hmem
    rcases List.mem_map.mp hmem with ⟨p, hp, hpk⟩
    have := h p hp
    rw [Bool.not_eq_true'] at this
    rw [← hpk]
    exact this
  · intro h p hp
    rw [Bool.not_eq_true']
    exact h p.1 ((dictContains_iff_mem P p.1).mpr (List.mem_map.mpr ⟨p, hp, rfl⟩))

/-! ## Dispatcher lemmas -/

theorem record_outcome_finished (now : Nat) (job : Job) (res : JobResult)
    (st : DispatchState) : (record_outcome now job res st).finished = st.finished := by
  simp only [record_outcome]
  split_ifs <;> rfl

theorem record_outcome_crashed (now : Nat) (job : Job) (res : JobResult)
    (st : DispatchState) : (record_outcome now job res st).crashed = st.crashed := by
  simp only [record_outcome]
  split_ifs <;> rfl

theorem record_outcome_dispatched (now : Nat) (job : Job) (res : JobResult)
    (st : DispatchState) : (record_outcome now job res st).dispatched = st.dispatched := by
  simp only [record_outcome]
  split_ifs <;> rfl

theorem record_outcome_commands (now : Nat) (job : Job) (res : JobResult)
    (st : DispatchState) : (record_outcome now job res st).commands = st.commands := by
  simp only [record_outcome]
  split_ifs <;> rfl

theorem record_outcome_progress_of_fail (now : Nat) (job : Job) (res : JobResult)
    (st : DispatchState) (h : res.ok = false) :
    (record_outcome now job res st).progress = st.progress := by
  simp only [record_outcome, h]
  rfl

theorem record_outcome_progress_ne (now : Nat) (job : Job) (res : JobResult)
    (st : DispatchState) (k' : String) (h : k' ≠ create_job_key job) :
    dictContains (record_outcome now job res st).progress k'
      = dictContains st.progress k' := by
  simp only [record_outcome]
  split_ifs <;> first
    | rfl
    | exact dictContains_set_ne _ _ _ _ h

theorem record_outcome_failed_ne (now : Nat) (job : Job) (res : JobResult)
    (st : DispatchState) (k' : String) (h : k' ≠ create_job_key job) :
    dictContains (record_outcome now job res st).failed k'
      = dictContains st.failed k' := by
  simp only [record_outcome]
  split_ifs <;> first
    | rfl
    | exact dictContains_erase_ne _ _ _ h
    | exact dictContains_set_ne _ _ _ _ h

theorem record_outcome_success (now : Nat) (job : Job) (res : JobResult)
    (st : DispatchState) (h : res.ok = true) :
    dictContains (record_outcome now job res st).progress (create_job_key job) = true
    ∧ dictContains (record_outcome now job res st).failed (create_job_key job) = false := by
  simp only [record_outcome, h, if_true]
  split_ifs with hf
  · exact ⟨dictContains_set_self _ _ _, dictContains_erase_self _ _⟩
  · exact ⟨dictContains_set_self _ _ _, (Bool.not_eq_true _).mp hf⟩

theorem record_outcome_fail_entry (now : Nat) (job : Job) (res : JobResult)
    (st : DispatchState) (h : res.ok = false) :
    dictGet? (record_outcome now job res st).failed (create_job_key job)
      = some ⟨job.image, now, res.message, job⟩ := by
  simp only [record_outcome, h]
  exact dictGet?_set_self _ _ _

theorem record_outcome_exclusive (now : Nat) (job : Job) (res : JobResult)
    (st : DispatchState)
    (hex : ∀ k, dictContains st.progress k = true → dictContains st.failed k = false)
    (hk : dictContains st.progress (create_job_key job) = false) :
    ∀ k, dictContains (record_outcome now job res st).progress k = true →
      dictContains (record_outcome now job res st).failed k = false := by
  intro k
  by_cases hkk : k = create_job_key job
  · subst hkk
    by_cases hok : res.ok = true
    · intro _
      exact (record_outcome_success now job res st hok).2
    · rw [record_outcome_progress_of_fail now job res st ((Bool.not_eq_true _).mp hok)]
      intro hP
      rw [hP] at hk
      exact absurd hk (by simp)
  · rw [record_outcome_progress_ne now job res st k hkk,
      record_outcome_failed_ne now job res st k hkk]
    exact hex k

theorem dispatch_step_finished (fs : List String) (oracle : List String → ExternRun)
    (pyExe demo_script : String) (od : Option String) (now : Nat)
    (st : DispatchState) (job : Job) :
    (dispatch_step fs oracle pyExe demo_script od now st job).finished = st.finished := by
  simp only [dispatch_step, record_outcome_finished]

theorem dispatch_step_crashed (fs : List String) (oracle : List String → ExternRun)
    (pyExe demo_script : String) (od : Option String) (now : Nat)
    (st : DispatchState) (job : Job) :
    (dispatch_step fs oracle pyExe demo_script od now st job).crashed = st.crashed := by
  simp only [dispatch_step, record_outcome_crashed]

theorem dispatch_step_dispatched (fs : List String) (oracle : List String → ExternRun)
    (pyExe demo_script : String) (od : Option String) (now : Nat)
    (st : DispatchState) (job : Job) :
    (dispatch_step fs oracle pyExe demo_script od now st job).dispatched
      = st.dispatched ++ [create_job_key job] := by
  simp only [dispatch_step, record_outcome_dispatched]

theorem dispatch_step_progress_of_fail (fs : List String)
    (oracle : List String → ExternRun) (pyExe demo_script : String)
    (od : Option String) (now : Nat) (st : DispatchState) (job : Job)
    (h : (run_single_job fs oracle pyExe demo_script od job).ok = false) :
    (dispatch_step fs oracle pyExe demo_script od now st job).progress = st.progress := by
  simp only [dispatch_step]
  exact record_outcome_progress_of_fail _ _ _ _ h

theorem run_pending_nil (fs : List String) (oracle : List String → ExternRun)
    (pyExe demo_script : String) (od : Option String) (now : Nat)
    (st : DispatchState) :
    run_pending fs oracle pyExe demo_script od now [] st = st := rfl

theorem run_pending_cons (fs : List String) (oracle : List String → ExternRun)
    (pyExe demo_script : String) (od : Option String) (now : Nat)
    (j : Job) (rest : List Job) (st : DispatchState) :
    run_pending fs oracle pyExe demo_script od now (j :: rest) st
      = run_pending fs oracle pyExe demo_script od now rest
          (dispatch_step fs oracle pyExe demo_script od now st j) := rfl

theorem run_pending_finished (fs : List String) (oracle : List String → ExternRun)
    (pyExe demo_script : String) (od : Option String) (now : Nat) :
    ∀ (pending : List Job) (st : DispatchState),
      (run_pending fs oracle pyExe demo_script od now pending st).finished
        = st.finished := by
  intro pending
  induction pending with
  | nil => intro st; rfl
  | cons j rest ih =>
    intro st
    rw [run_pending_cons, ih, dispatch_step_finished]

theorem run_pending_crashed (fs : List String) (oracle : List String → ExternRun)
    (pyExe demo_script : String) (od : Option String) (now : Nat) :
    ∀ (pending : List Job) (st : DispatchState),
      (run_pending fs oracle pyExe demo_script od now pending st).crashed
        = st.crashed := by
  intro pending
  induction pending with
  | nil => intro st; rfl
  | cons j rest ih =>
    intro st
    rw [run_pending_cons, ih, dispatch_step_crashed]

theorem run_pending_dispatched (fs : List String) (oracle : List String → ExternRun)
    (pyExe demo_script : String) (od : Option String) (now : Nat) :
    ∀ (pending : List Job) (st : DispatchState),
      (run_pending fs oracle pyExe demo_script od now pending st).dispatched
        = st.dispatched ++ pending.map create_job_key := by
  intro pending
  induction pending with
  | nil => intro st; simp [run_pending_nil]
  | cons j rest ih =>
    intro st
    rw [run_pending_cons, ih, dispatch_step_dispatched, List.map_cons,
      List.append_assoc]
    rfl

theorem run_pending_progress_of_all_fail (fs : List String)
    (oracle : List String → ExternRun) (pyExe demo_script : String)
    (od : Option String) (now : Nat) :
    ∀ (pending : List Job) (st : DispatchState),
      (∀ j ∈ pending, (run_single_job fs oracle pyExe demo_script od j).ok = false) →
      (run_pending fs oracle pyExe demo_script od now pending st).progress
        = st.progress := by
  intro pending
  induction pending with
  | nil => intro st _; rfl
  | cons j rest ih =>
    intro st hall
    rw [run_pending_cons, ih _ (fun j' hj' => hall j' (List.mem_cons_of_mem _ hj')),
      dispatch_step_progress_of_fail _ _ _ _ _ _ _ _ (hall j (List.mem_cons_self _ _))]

theorem dispatch_step_progress_ne (fs : List String)
    (oracle : List String → ExternRun) (pyExe demo_script : String)
    (od : Option String) (now : Nat) (st : DispatchState) (job : Job) (k' : String)
    (h : k' ≠ create_job_key job) :
    dictContains (dispatch_step fs oracle pyExe demo_script od now st job).progress k'
      = dictContains st.progress k' := by
  simp only [dispatch_step]
  exact record_outcome_progress_ne _ _ _ _ _ h

theorem run_pending_exclusive (fs : List String) (oracle : List String → ExternRun)
    (pyExe demo_script : String) (od : Option String) (now : Nat) :
    ∀ (pending : List Job) (st : DispatchState),
      (∀ k, dictContains st.progress k = true → dictContains st.failed k = false) →
      ((pending.map create_job_key).Nodup) →
      (∀ j ∈ pending, dictContains st.progress (create_job_key j) = false) →
      ∀ k, dictContains
            (run_pending fs oracle pyExe demo_script od now pending st).progress k = true →
          dictContains
            (run_pending fs oracle pyExe demo_script od now pending st).failed k = false := by
  intro pending
  induction pending with
  | nil => intro st hex _ _; exact hex
  | cons j rest ih =>
    intro st hex hnd hfresh
    rw [run_pending_cons]
    have hnd' : (rest.map create_job_key).Nodup := (List.nodup_cons.mp hnd).2
    have hjrest : create_job_key j ∉ rest.map create_job_key := (List.nodup_cons.mp hnd).1
    apply ih
    · exact record_outcome_exclusive now j _ _ hex (hfresh j (List.mem_cons_self _ _))
    · exact hnd'
    · intro j' hj'
      have hne : create_job_key j' ≠ create_job_key j := by
        intro he
        exact hjrest (he ▸ List.mem_map_of_mem create_job_key hj')
      rw [dispatch_step_progress_ne _ _ _ _ _ _ _ _ _ hne]
      exact hfresh j' (List.mem_cons_of_mem _ hj')

theorem pendingJobs_nil (progress : List (String × ProgressEntry)) :
    pendingJobs [] progress = [] := rfl

theorem pendingJobs_sublist (jobs : List Job) (progress : List (String × ProgressEntry)) :
    List.Sublist (pendingJobs jobs progress) jobs :=
  List.filter_sublist jobs

theorem pendingJobs_keys_nodup (jobs : List Job)
    (progress : List (String × ProgressEntry))
    (h : (jobs.map create_job_key).Nodup) :
    ((pendingJobs jobs progress).map create_job_key).Nodup :=
  List.Nodup.sublist (List.Sublist.map create_job_key (pendingJobs_sublist jobs progress)) h

theorem pendingJobs_fresh (jobs : List Job) (progress : List (String × ProgressEntry)) :
    ∀ j ∈ pendingJobs jobs progress,
      dictContains progress (create_job_key j) = false := by
  intro j hj
  have h2 := (List.mem_filter.mp hj).2
  simp only [Bool.and_eq_true, Bool.not_eq_true'] at h2
  exact h2.2

theorem pendingJobs_key_truthy (jobs : List Job)
    (progress : List (String × ProgressEntry)) :
    ∀ j ∈ pendingJobs jobs progress, create_job_key j ≠ "" := by
  intro j hj
  have h2 := (List.mem_filter.mp hj).2
  simp only [Bool.and_eq_true, decide_eq_true_eq] at h2
  exact h2.1

theorem process_cycles_zero (fs : List String) (oracle : List String → ExternRun)
    (pyExe demo_script : String) (od : Option String) (now : Nat) (dry : Bool)
    (jobs : List Job) (st : DispatchState) :
    process_cycles fs oracle pyExe demo_script od now dry jobs 0 st = st := rfl

theorem process_cycles_succ (fs : List String) (oracle : List String → ExternRun)
    (pyExe demo_script : String) (od : Option String) (now : Nat) (dry : Bool)
    (jobs : List Job) (fuel : Nat) (st : DispatchState) :
    process_cycles fs oracle pyExe demo_script od now dry jobs (fuel + 1) st
      = if jobs.isEmpty then { st with finished := true }
        else if (pendingJobs jobs st.progress).isEmpty then { st with finished := true }
        else if dry then
          (if (pendingJobs jobs st.progress).any (fun j => j.prompt.isNone)
           then { st with crashed := true } else { st with finished := true })
        else process_cycles fs oracle pyExe demo_script od now dry jobs fuel
          (run_pending fs oracle pyExe demo_script od now
            (pendingJobs jobs st.progress) st) := rfl

theorem process_cycles_exclusive (fs : List String) (oracle : List String → ExternRun)
    (pyExe demo_script : String) (od : Option String) (now : Nat) (dry : Bool)
    (jobs : List Job) (hnd : (jobs.map create_job_key).Nodup) :
    ∀ (fuel : Nat) (st : DispatchState),
      (∀ k, dictContains st.progress k = true → dictContains st.failed k = false) →
      ∀ k, dictContains
            (process_cycles fs oracle pyExe demo_script od now dry jobs fuel st).progress
            k = true →
          dictContains
            (process_cycles fs oracle pyExe demo_script od now dry jobs fuel st).failed
            k = false := by
  intro fuel
  induction fuel with
  | zero => intro st hex; exact hex
  | succ fuel ih =>
    intro st hex
    rw [process_cycles_succ]
    by_cases hj : jobs.isEmpty
    · rw [if_pos hj]; exact hex
    · rw [if_neg hj]
      by_cases hp : (pendingJobs jobs st.progress).isEmpty
      · rw [if_pos hp]; exact hex
      · rw [if_neg hp]
        by_cases hd : dry = true
        · rw [if_pos hd]
          by_cases ha : (pendingJobs jobs st.progress).any (fun j => j.prompt.isNone) = true
          · rw [if_pos ha]; exact hex
          · rw [if_neg ha]; exact hex
        · rw [if_neg hd]
          exact ih _ (run_pending_exclusive _ _ _ _ _ _ _ _ hex
            (pendingJobs_keys_nodup _ _ hnd) (pendingJobs_fresh _ _))

theorem process_cycles_finished_pending (fs : List String)
    (oracle : List String → ExternRun) (pyExe demo_script : String)
    (od : Option String) (now : Nat) (jobs : List Job) :
    ∀ (fuel : Nat) (st : DispatchState),
      st.finished = false →
      (process_cycles fs oracle pyExe demo_script od now false jobs fuel st).finished
        = true →
      pendingJobs jobs
        (process_cycles fs oracle pyExe demo_script od now false jobs fuel st).progress
        = [] := by
  intro fuel
  induction fuel with
  | zero =>
    intro st h0 h1
    have h1' : st.finished = true := h1
    rw [h0] at h1'
    exact absurd h1' (by simp)
  | succ fuel ih =>
    intro st h0 h1
    rw [process_cycles_succ] at h1 ⊢
    by_cases hj : jobs.isEmpty
    · rw [if_pos hj] at h1 ⊢
      have hje : jobs = [] := List.isEmpty_iff.mp hj
      subst hje
      exact pendingJobs_nil _
    · rw [if_neg hj] at h1 ⊢
      by_cases hp : (pendingJobs jobs st.progress).isEmpty
      · rw [if_pos hp] at h1 ⊢
        exact List.isEmpty_iff.mp hp
      · rw [if_neg hp] at h1 ⊢
        rw [if_neg (by simp : ¬ ((false : Bool) = true))] at h1 ⊢
        exact ih _ (by rw [run_pending_finished]; exact h0) h1

theorem process_cycles_dry (fs : List String) (oracle : List String → ExternRun)
    (pyExe demo_script : String) (od : Option String) (now : Nat)
    (jobs : List Job) (fuel : Nat) (st : DispatchState) :
    (process_cycles fs oracle pyExe demo_script od now true jobs fuel st).progressWrites
        = st.progressWrites
    ∧ (process_cycles fs oracle pyExe demo_script od now true jobs fuel st).failedWrites
        = st.failedWrites
    ∧ (process_cycles fs oracle pyExe demo_script od now true jobs fuel st).commands
        = st.commands := by
  cases fuel with
  | zero => exact ⟨rfl, rfl, rfl⟩
  | succ fuel =>
    rw [process_cycles_succ]
    by_cases hj : jobs.isEmpty
    · rw [if_pos hj]; exact ⟨rfl, rfl, rfl⟩
    · rw [if_neg hj]
      by_cases hp : (pendingJobs jobs st.progress).isEmpty
      · rw [if_pos hp]; exact ⟨rfl, rfl, rfl⟩
      · rw [if_neg hp]
        rw [if_pos rfl]
        by_cases ha : (pendingJobs jobs st.progress).any (fun j => j.prompt.isNone) = true
        · rw [if_pos ha]; exact ⟨rfl, rfl, rfl⟩
        · rw [if_neg ha]; exact ⟨rfl, rfl, rfl⟩

theorem record_outcome_flush (d : List (String × ProgressEntry)) (now : Nat)
    (job : Job) (res : JobResult) (st : DispatchState) :
    (record_outcome now job res st).progressWrites.getLastD d
      = (record_outcome now job res st).progress := by
  simp only [record_outcome]
  split_ifs <;> exact List.getLastD_concat _ _ _

theorem dispatch_step_flush (d : List (String × ProgressEntry)) (fs : List String)
    (oracle : List String → ExternRun) (pyExe demo_script : String)
    (od : Option String) (now : Nat) (st : DispatchState) (job : Job) :
    (dispatch_step fs oracle pyExe demo_script od now st job).progressWrites.getLastD d
      = (dispatch_step fs oracle pyExe demo_script od now st job).progress := by
  simp only [dispatch_step]
  exact record_outcome_flush d now job _ _

theorem run_pending_flush (d : List (String × ProgressEntry)) (fs : List String)
    (oracle : List String → ExternRun) (pyExe demo_script : String)
    (od : Option String) (now : Nat) :
    ∀ (pending : List Job) (st : DispatchState),
      st.progressWrites.getLastD d = st.progress →
      (run_pending fs oracle pyExe demo_script od now pending st).progressWrites.getLastD d
        = (run_pending fs oracle pyExe demo_script od now pending st).progress := by
  intro pending
  induction pending with
  | nil => intro st h; exact h
  | cons j rest ih =>
    intro st _
    rw [run_pending_cons]
    exact ih _ (dispatch_step_flush d _ _ _ _ _ _ _ _)

theorem process_cycles_flush (d : List (String × ProgressEntry)) (fs : List String)
    (oracle : List String → ExternRun) (pyExe demo_script : String)
    (od : Option String) (now : Nat) (dry : Bool) (jobs : List Job) :
    ∀ (fuel : Nat) (st : DispatchState),
      st.progressWrites.getLastD d = st.progress →
      (process_cycles fs oracle pyExe demo_script od now dry jobs fuel st).progressWrites.getLastD d
        = (process_cycles fs oracle pyExe demo_script od now dry jobs fuel st).progress := by
  intro fuel
  induction fuel with
  | zero => intro st h; exact h
  | succ fuel ih =>
    intro st h
    rw [process_cycles_succ]
    by_cases hj : jobs.isEmpty
    · rw [if_pos hj]; exact h
    · rw [if_neg hj]
      by_cases hp : (pendingJobs jobs st.progress).isEmpty
      · rw [if_pos hp]; exact h
      · rw [if_neg hp]
        by_cases hd : dry = true
        · rw [if_pos hd]
          by_cases ha : (pendingJobs jobs st.progress).any (fun j => j.prompt.isNone) = true
          · rw [if_pos ha]; exact h
          · rw [if_neg ha]; exact h
        · rw [if_neg hd]
          exact ih _ (run_pending_flush d _ _ _ _ _ _ _ _ h)

theorem process_cycles_no_pending (fs : List String) (oracle : List String → ExternRun)
    (pyExe demo_script : String) (od : Option String) (now : Nat) (dry : Bool)
    (jobs : List Job) (fuel : Nat) (P : List (String × ProgressEntry))
    (F : List (String × FailureEntry)) (h : pendingJobs jobs P = []) :
    (process_cycles fs oracle pyExe demo_script od now dry jobs fuel
        (initState false P F)).commands = []
    ∧ (process_cycles fs oracle pyExe demo_script od now dry jobs fuel
        (initState false P F)).dispatched = [] := by
  cases fuel with
  | zero => exact ⟨rfl, rfl⟩
  | succ fuel =>
    rw [process_cycles_succ]
    by_cases hj : jobs.isEmpty
    · rw [if_pos hj]; exact ⟨rfl, rfl⟩
    · rw [if_neg hj]
      have hp : (pendingJobs jobs (initState false P F).progress).isEmpty = true := by
        show (pendingJobs jobs P).isEmpty = true
        rw [h]
        rfl
      rw [if_pos hp]
      exact ⟨rfl, rfl⟩

/-! ## Prompt Generator lemmas -/

theorem pg_step_dry_writes (api : String → ApiResponse) (rp : String → String)
    (dd ds : Int) (pt : String) (st : PGState) (ip : String) :
    (pg_step api rp dd ds true pt st ip).writes = st.writes := by
  by_cases h : dictContains st.existing (rp ip) = true
  · simp [pg_step, h]
  · simp [pg_step, h]

theorem pg_fold_dry_writes (api : String → ApiResponse) (rp : String → String)
    (dd ds : Int) (pt : String) :
    ∀ (paths : List String) (st : PGState),
      (paths.foldl (pg_step api rp dd ds true pt) st).writes = st.writes := by
  intro paths
  induction paths with
  | nil => intro st; rfl
  | cons ip rest ih =>
    intro st
    rw [List.foldl_cons, ih, pg_step_dry_writes]

theorem pg_step_generated (api : String → ApiResponse) (rp : String → String)
    (dd ds : Int) (dry : Bool) (pt : String) (st : PGState) (ip : String) :
    (pg_step api rp dd ds dry pt st ip).generated = st.generated
    ∨ (pg_step api rp dd ds dry pt st ip).generated = st.generated ++ [ip] := by
  by_cases h : dictContains st.existing (rp ip) = true
  · left
    simp only [pg_step, if_pos h]
  · by_cases hd : dry = true
    · left
      simp only [pg_step, if_neg h, if_pos hd]
    · right
      simp only [pg_step, if_neg h, if_neg hd]
      rcases hg : (generate_motion_prompt api pt ip).2 with _ | p
      · rfl
      · by_cases hp : p ≠ ""
        · simp only [if_pos hp]
        · simp only [if_neg hp]

theorem pg_fold_generated (api : String → ApiResponse) (rp : String → String)
    (dd ds : Int) (dry : Bool) (pt : String) :
    ∀ (paths : List String) (st : PGState),
      ∃ extra, (paths.foldl (pg_step api rp dd ds dry pt) st).generated
          = st.generated ++ extra
        ∧ List.Sublist extra paths := by
  intro paths
  induction paths with
  | nil =>
    intro st
    exact ⟨[], by simp, List.Sublist.refl []⟩
  | cons ip rest ih =>
    intro st
    rw [List.foldl_cons]
    obtain ⟨e, he, hs⟩ := ih (pg_step api rp dd ds dry pt st ip)
    rcases pg_step_generated api rp dd ds dry pt st ip with hg | hg
    · exact ⟨e, by rw [he, hg], List.Sublist.cons ip hs⟩
    · refine ⟨ip :: e, ?_, List.Sublist.cons₂ ip hs⟩
      rw [he, hg, List.append_assoc]
      rfl

theorem pg_init_generated (fs : List String) (cwd : String)
    (outputDoc : List PromptRecord) (dry : Bool) :
    (pg_init fs cwd outputDoc dry).generated = [] := rfl

theorem pg_init_dry_writes (fs : List String) (cwd : String)
    (outputDoc : List PromptRecord) :
    (pg_init fs cwd outputDoc true).writes = [] := by
  simp [pg_init]

theorem prompt_main_dry_writes (fs : List String) (cwd : String)
    (api : String → ApiResponse) (rp : String → String) (b : Bool)
    (paths : List String) (doc : List PromptRecord) (dd ds : Int) (pt : String) :
    (prompt_main fs cwd api rp b paths doc dd ds true pt).writes = [] := by
  by_cases hb : b = true
  · by_cases hp : paths.isEmpty = true
    · simp [prompt_main, hb, hp]
    · simp [prompt_main, hb, hp, pg_fold_dry_writes, pg_init_dry_writes]
  · simp [prompt_main, hb]

theorem prompt_main_generated_nodup (fs : List String) (cwd : String)
    (api : String → ApiResponse) (rp : String → String) (b : Bool)
    (paths : List String) (doc : List PromptRecord) (dd ds : Int) (dry : Bool)
    (pt : String) (hnd : paths.Nodup) :
    (prompt_main fs cwd api rp b paths doc dd ds dry pt).generated.Nodup := by
  by_cases hb : b = true
  · by_cases hp : paths.isEmpty = true
    · simp [prompt_main, hb, hp]
    · obtain ⟨e, he, hs⟩ := pg_fold_generated api rp dd ds dry pt paths
        (pg_init fs cwd doc dry)
      have hm : (prompt_main fs cwd api rp b paths doc dd ds dry pt).generated = e := by
        simp only [prompt_main, hb]
        rw [if_neg (by simp), if_neg hp, he, pg_init_generated, List.nil_append]
      rw [hm]
      exact List.Nodup.sublist hs hnd
  · simp [prompt_main, hb]

theorem clean_fold (fs : List String) (cwd : String) :
    ∀ (m : List (String × PromptRecord)) (acc : List (String × PromptRecord) × Nat),
      m.foldl (clean_step fs cwd false) acc
        = (acc.1 ++ m.filter (fun q => fs.contains (resolveImagePath cwd q.1)),
           acc.2 + (m.filter (fun q => ! fs.contains (resolveImagePath cwd q.1))).length) := by
  intro m
  induction m with
  | nil =>
    intro acc
    simp
  | cons p rest ih =>
    intro acc
    rw [List.foldl_cons]
    by_cases h : fs.contains (resolveImagePath cwd p.1) = true
    · have hstep : clean_step fs cwd false acc p = (acc.1 ++ [p], acc.2) := by
        simp only [clean_step, if_pos h]
      have hf1 : List.filter (fun q : String × PromptRecord =>
          fs.contains (resolveImagePath cwd q.1)) (p :: rest)
          = p :: List.filter (fun q : String × PromptRecord =>
            fs.contains (resolveImagePath cwd q.1)) rest := by
        simp only [List.filter_cons]
        rw [if_pos]
        exact h
      have hf2 : List.filter (fun q : String × PromptRecord =>
          ! fs.contains (resolveImagePath cwd q.1)) (p :: rest)
          = List.filter (fun q : String × PromptRecord =>
            ! fs.contains (resolveImagePath cwd q.1)) rest := by
        simp only [List.filter_cons]
        rw [if_neg]
        intro hc
        rw [h] at hc
        simp at hc
      rw [hstep, ih, hf1, hf2, List.append_assoc]
      rfl
    · have hstep : clean_step fs cwd false acc p = (acc.1, acc.2 + 1) := by
        simp only [clean_step, if_neg h, if_neg (by simp : ¬ ((false : Bool) = true))]
      have hf1 : List.filter (fun q : String × PromptRecord =>
          fs.contains (resolveImagePath cwd q.1)) (p :: rest)
          = List.filter (fun q : String × PromptRecord =>
            fs.contains (resolveImagePath cwd q.1)) rest := by
        simp only [List.filter_cons]
        rw [if_neg]
        exact h
      have hf2 : List.filter (fun q : String × PromptRecord =>
          ! fs.contains (resolveImagePath cwd q.1)) (p :: rest)
          = p :: List.filter (fun q : String × PromptRecord =>
            ! fs.contains (resolveImagePath cwd q.1)) rest := by
        simp only [List.filter_cons]
        rw [if_pos]
        simp only [Bool.not_eq_true']
        exact (Bool.not_eq_true _) ▸ h
      rw [hstep, ih, hf1, hf2, List.length_cons, Prod.mk.injEq]
      exact ⟨rfl, by omega⟩

theorem load_fold :
    ∀ (m : List (String × PromptRecord)) (acc : List (String × PromptRecord)),
      (∀ p ∈ m, p.2.image = some p.1) →
      ((m.map Prod.fst).Nodup) →
      (∀ p ∈ m, dictContains acc p.1 = false) →
      (m.map Prod.snd).foldl load_item acc = acc ++ m := by
  intro m
  induction m with
  | nil =>
    intro acc _ _ _
    simp
  | cons p rest ih =>
    intro acc himg hnd hfresh
    rw [List.map_cons, List.foldl_cons]
    have hstep : load_item acc p.2 = acc ++ [p] := by
      rw [load_item, himg p (List.mem_cons_self _ _)]
      show dictSet acc p.1 p.2 = acc ++ [p]
      rw [dictSet_of_not_contains acc p.1 p.2 (hfresh p (List.mem_cons_self _ _))]
    rw [hstep,
      ih (acc ++ [p]) (fun q hq => himg q (List.mem_cons_of_mem _ hq))
        ((List.nodup_cons.mp (by simpa using hnd)).2)
        (fun q hq => by
          have hqk : p.1 ≠ q.1 := by
            intro he
            exact (List.nodup_cons.mp (by simpa using hnd)).1
              (he ▸ List.mem_map_of_mem Prod.fst hq)
          rw [dictContains_append, hfresh q (List.mem_cons_of_mem _ hq)]
          simp [dictContains, hqk]),
      List.append_assoc]
    rfl

theorem load_save_roundtrip (m : List (String × PromptRecord))
    (himg : ∀ p ∈ m, p.2.image = some p.1) (hnd : (m.map Prod.fst).Nodup) :
    load_existing_data (save_data m) = m := by
  have h := load_fold m [] himg hnd (fun p _ => rfl)
  simpa [load_existing_data, save_data] using h

/-! ## Claims -/

/-- Claim C6: for every job whose numeric optional field (seed, steps,
duration, cfg, distilled_cfg, cfg_rescale, gpu_memory, mp4_crf) has the
value 0, the Worker's argument list passed to the external CLI omits the
corresponding flag, exactly as if the field were absent — the truthiness
test in `run_single_job` drops explicit zeros. -/
theorem zero_numeric_fields_omitted (pyExe demo_script : String)
    (od : Option String) (job : Job) :
    buildCmd pyExe demo_script od { job with seed := some 0 }
      = buildCmd pyExe demo_script od { job with seed := none }
    ∧ buildCmd pyExe demo_script od { job with steps := some 0 }
      = buildCmd pyExe demo_script od { job with steps := none }
    ∧ buildCmd pyExe demo_script od { job with duration := some 0 }
      = buildCmd pyExe demo_script od { job with duration := none }
    ∧ buildCmd pyExe demo_script od { job with cfg := some 0 }
      = buildCmd pyExe demo_script od { job with cfg := none }
    ∧ buildCmd pyExe demo_script od { job with distilled_cfg := some 0 }
      = buildCmd pyExe demo_script od { job with distilled_cfg := none }
    ∧ buildCmd pyExe demo_script od { job with cfg_rescale := some 0 }
      = buildCmd pyExe demo_script od { job with cfg_rescale := none }
    ∧ buildCmd pyExe demo_script od { job with gpu_memory := some 0 }
      = buildCmd pyExe demo_script od { job with gpu_memory := none }
    ∧ buildCmd pyExe demo_script od { job with mp4_crf := some 0 }
      = buildCmd pyExe demo_script od { job with mp4_crf := none } := by
  refine ⟨?_, ?_, ?_, ?_, ?_, ?_, ?_, ?_⟩ <;> rfl

/-- Claim C9: the Dispatcher's dry-run printing is unsafe — on a Job Store
whose single pending job has no prompt field, formatting the truncated
prompt raises an unhandled exception (`None` is not subscriptable), so the
dry run crashes and `main` exits non-zero instead of printing the pending
set, and no ledger file is written. -/
theorem dry_run_crash_on_missing_prompt :
    (process_jobs 1 [] sampleOk "python" "demo_gradio.py" none 0 [sampleNoPrompt]
      false true [] []).crashed = true
    ∧ batch_main_exit 1 [] sampleOk "python" "demo_gradio.py" none 0 [sampleNoPrompt]
      false true [] [] = 1
    ∧ (process_jobs 1 [] sampleOk "python" "demo_gradio.py" none 0 [sampleNoPrompt]
      false true [] []).progressWrites = []
    ∧ (process_jobs 1 [] sampleOk "python" "demo_gradio.py" none 0 [sampleNoPrompt]
      false true [] []).failedWrites = [] :=
  ⟨rfl, rfl, rfl, rfl⟩

/-- Claim C10: saving a keyed prompt mapping with `save_data` and loading
the written document back with `load_existing_data` returns the original
mapping — same keys, same records, insertion order preserved — whenever
each record's image field equals its key and the keys are distinct. -/
theorem load_save_roundtrip_claim (m : List (String × PromptRecord))
    (himg : ∀ p ∈ m, p.2.image = some p.1)
    (hnd : (m.map Prod.fst).Nodup) :
    load_existing_data (save_data m) = m :=
  load_save_roundtrip m himg hnd

/-- Witness for C10 at a concrete two-record mapping. -/
theorem load_save_roundtrip_claim_witness :
    load_existing_data (save_data
        [("a.png", { image := some "a.png" }), ("b.png", { image := some "b.png" })])
      = [("a.png", { image := some "a.png" }), ("b.png", { image := some "b.png" })] :=
  load_save_roundtrip_claim _ (by decide) (by decide)

/-- Claim C8: a non-dry-run pruning pass keeps exactly the records whose
referenced image file exists on disk (relative paths resolved against the
working directory), counts exactly the missing ones, and the record count
decreases by exactly the number of missing files. -/
theorem pruning_correct (fs : List String) (cwd : String)
    (m : List (String × PromptRecord)) :
    (clean_missing_images fs cwd m false).1
        = m.filter (fun q => fs.contains (resolveImagePath cwd q.1))
    ∧ (clean_missing_images fs cwd m false).2
        = (m.filter (fun q => ! fs.contains (resolveImagePath cwd q.1))).length
    ∧ (clean_missing_images fs cwd m false).1.length
        + (clean_missing_images fs cwd m false).2 = m.length := by
  unfold clean_missing_images
  rw [clean_fold fs cwd m ([], 0)]
  refine ⟨by simp, by simp, ?_⟩
  simp only [List.nil_append, Nat.zero_add]
  exact (List.length_eq_length_filter_add _).symm

/-- Claim C2: a job whose image or prompt field is absent or empty, and
likewise a field-complete job whose image file does not exist on disk, is
recorded as an immediate failure — `run_single_job` returns failure with
the corresponding descriptive message without invoking the external
process, and the Dispatcher's outcome handling stores a Failure Ledger
entry carrying that message. -/
theorem invalid_job_fails_without_invocation (fs : List String)
    (oracle : List String → ExternRun) (pyExe demo_script : String)
    (od : Option String) (now : Nat) (st : DispatchState) (j : Job)
    (h : (strTruthy j.image = false ∨ strTruthy j.prompt = false)
      ∨ (strTruthy j.image = true ∧ strTruthy j.prompt = true
          ∧ fs.contains (j.image.getD "") = false)) :
    (run_single_job fs oracle pyExe demo_script od j).cmdRun = none
    ∧ (run_single_job fs oracle pyExe demo_script od j).ok = false
    ∧ (run_single_job fs oracle pyExe demo_script od j).message
        = (if strTruthy j.image && strTruthy j.prompt
           then "Image file not found: " ++ j.image.getD ""
           else "Missing image or prompt")
    ∧ dictGet?
        (record_outcome now j (run_single_job fs oracle pyExe demo_script od j) st).failed
        (create_job_key j)
      = some ⟨j.image, now,
          (run_single_job fs oracle pyExe demo_script od j).message, j⟩ := by
  rcases h with h | ⟨h1, h2, h3⟩
  · have hcond : ¬ ((strTruthy j.image && strTruthy j.prompt) = true) := by
      rcases h with h | h <;> simp [h]
    have hL : run_single_job fs oracle pyExe demo_script od j
        = ⟨none, false, "Missing image or prompt"⟩ := by
      simp only [run_single_job]
      rw [if_pos hcond]
    refine ⟨by rw [hL], by rw [hL], ?_, ?_⟩
    · rw [hL, if_neg hcond]
    · exact record_outcome_fail_entry now j _ st (by rw [hL])
  · have hcond : ¬ ¬ ((strTruthy j.image && strTruthy j.prompt) = true) := by
      intro hc
      exact hc (by rw [h1, h2]; rfl)
    have hfs : ¬ (fs.contains (j.image.getD "") = true) := by
      rw [h3]
      simp
    have hL : run_single_job fs oracle pyExe demo_script od j
        = ⟨none, false, "Image file not found: " ++ j.image.getD ""⟩ := by
      simp only [run_single_job]
      rw [if_neg hcond, if_pos hfs]
    refine ⟨by rw [hL], by rw [hL], ?_, ?_⟩
    · rw [hL, if_pos (show (strTruthy j.image && strTruthy j.prompt) = true by rw [h1, h2]; rfl)]
    · exact record_outcome_fail_entry now j _ st (by rw [hL])

/-- Witness for C2: a pending job with an image key but no prompt is
recorded as an immediate failure with the descriptive message. -/
theorem invalid_job_fails_without_invocation_witness :
    (run_single_job [] sampleOk "python" "demo_gradio.py" none sampleNoPrompt).cmdRun = none
    ∧ (run_single_job [] sampleOk "python" "demo_gradio.py" none sampleNoPrompt).ok = false
    ∧ (run_single_job [] sampleOk "python" "demo_gradio.py" none sampleNoPrompt).message
        = (if strTruthy sampleNoPrompt.image && strTruthy sampleNoPrompt.prompt
           then "Image file not found: " ++ sampleNoPrompt.image.getD ""
           else "Missing image or prompt")
    ∧ dictGet?
        (record_outcome 0 sampleNoPrompt
          (run_single_job [] sampleOk "python" "demo_gradio.py" none sampleNoPrompt)
          (initState false [] [])).failed
        (create_job_key sampleNoPrompt)
      = some ⟨sampleNoPrompt.image, 0,
          (run_single_job [] sampleOk "python" "demo_gradio.py" none sampleNoPrompt).message,
          sampleNoPrompt⟩ :=
  invalid_job_fails_without_invocation [] sampleOk "python" "demo_gradio.py" none 0
    (initState false [] []) sampleNoPrompt (Or.inl (Or.inr (by decide)))

/-- Counterexample to claim C7 as stated: when the external process exits
non-zero with both output streams empty, the returned message is the fixed
string "Unknown error", not the (empty) standard-output fallback the claim
describes. -/
theorem worker_outcome_reporting_cex :
    (run_single_job sampleFs (fun _ => ⟨10, RawResult.exited 1 "" ""⟩) "python"
      "demo_gradio.py" none sampleJob).message = "Unknown error"
    ∧ ¬ ((run_single_job sampleFs (fun _ => ⟨10, RawResult.exited 1 "" ""⟩) "python"
      "demo_gradio.py" none sampleJob).message = "") :=
  ⟨rfl, by decide⟩

/-- Claim C7 (amended): for a validated job, `execute` reports a run
longer than the fixed one-hour timeout as failure with the distinct
timeout reason; a non-zero exit as failure whose message is the stripped
error-stream output, falling back to the stripped standard output when the
stripped error stream is empty and to "Unknown error" when both are empty;
and a zero exit as success. -/
theorem worker_outcome_reporting (fs : List String)
    (oracle : List String → ExternRun) (pyExe demo_script : String)
    (od : Option String) (j : Job)
    (h1 : strTruthy j.image = true) (h2 : strTruthy j.prompt = true)
    (h3 : fs.contains (j.image.getD "") = true) :
    (timeout_seconds < (oracle (buildCmd pyExe demo_script od j)).duration →
      run_single_job fs oracle pyExe demo_script od j
        = ⟨some (buildCmd pyExe demo_script od j), false, "Timeout after 1 hour"⟩)
    ∧ (∀ (code : Nat) (o e : String),
        (oracle (buildCmd pyExe demo_script od j)).duration ≤ timeout_seconds →
        (oracle (buildCmd pyExe demo_script od j)).result = RawResult.exited code o e →
        code ≠ 0 →
        run_single_job fs oracle pyExe demo_script od j
          = ⟨some (buildCmd pyExe demo_script od j), false,
              orFallback (pyStrip e) (pyStrip o) "Unknown error"⟩)
    ∧ (∀ (o e : String),
        (oracle (buildCmd pyExe demo_script od j)).duration ≤ timeout_seconds →
        (oracle (buildCmd pyExe demo_script od j)).result = RawResult.exited 0 o e →
        run_single_job fs oracle pyExe demo_script od j
          = ⟨some (buildCmd pyExe demo_script od j), true, "Success"⟩) := by
  have hcond : ¬ ¬ ((strTruthy j.image && strTruthy j.prompt) = true) := by
    intro hc
    exact hc (by rw [h1, h2]; rfl)
  have hfs : ¬ ¬ (fs.contains (j.image.getD "") = true) := by
    intro hc
    exact hc h3
  refine ⟨?_, ?_, ?_⟩
  · intro ht
    simp only [run_single_job]
    rw [if_neg hcond, if_neg hfs, if_pos ht]
  · intro code o e hd hr hc
    simp only [run_single_job]
    rw [if_neg hcond, if_neg hfs, if_neg (Nat.not_lt.mpr hd), hr]
    simp only [if_neg hc]
  · intro o e hd hr
    simp only [run_single_job]
    rw [if_neg hcond, if_neg hfs, if_neg (Nat.not_lt.mpr hd), hr]
    simp

/-- Witness for C7 at a concrete non-zero exit whose stderr is blank, so
the message falls back through the stripped streams. -/
theorem worker_outcome_reporting_witness :
    run_single_job sampleFs (fun _ => ⟨10, RawResult.exited 1 " out " "  "⟩) "python"
      "demo_gradio.py" none sampleJob
      = ⟨some (buildCmd "python" "demo_gradio.py" none sampleJob), false,
          orFallback (pyStrip "  ") (pyStrip " out ") "Unknown error"⟩ :=
  (worker_outcome_reporting sampleFs (fun _ => ⟨10, RawResult.exited 1 " out " "  "⟩)
    "python" "demo_gradio.py" none sampleJob (by decide) (by decide) (by decide)).2.1
    1 " out " "  " (by decide) rfl (by decide)

/-- Claim C5: dry-run non-mutation — for every input state, a dry run of
the Dispatcher flushes neither ledger file and invokes no external
command, and a dry run of the Prompt Generator writes no output document. -/
theorem dry_run_no_mutation :
    (∀ (fuel : Nat) (fs : List String) (oracle : List String → ExternRun)
       (pyExe demo_script : String) (od : Option String) (now : Nat)
       (jobs : List Job) (force : Bool)
       (pfile : List (String × ProgressEntry)) (ffile : List (String × FailureEntry)),
      (process_jobs fuel fs oracle pyExe demo_script od now jobs force true
          pfile ffile).progressWrites = []
      ∧ (process_jobs fuel fs oracle pyExe demo_script od now jobs force true
          pfile ffile).failedWrites = []
      ∧ (process_jobs fuel fs oracle pyExe demo_script od now jobs force true
          pfile ffile).commands = [])
    ∧ (∀ (fs : List String) (cwd : String) (api : String → ApiResponse)
        (rp : String → String) (b : Bool) (paths : List String)
        (doc : List PromptRecord) (dd ds : Int) (pt : String),
      (prompt_main fs cwd api rp b paths doc dd ds true pt).writes = []) := by
  constructor
  · intro fuel fs oracle pyExe demo_script od now jobs force pfile ffile
    exact process_cycles_dry fs oracle pyExe demo_script od now jobs fuel
      (initState force pfile ffile)
  · intro fs cwd api rp b paths doc dd ds pt
    exact prompt_main_dry_writes fs cwd api rp b paths doc dd ds pt

/-- Counterexample to claim C1 as stated: a job that fails (and is
recorded in the Failure Ledger after the first cycle) is dispatched to the
Worker again on the second polling cycle over the unchanged Job Store, and
the external command is invoked twice. -/
theorem no_automatic_retry_cex :
    (process_jobs 2 sampleFs sampleFail "python" "demo_gradio.py" none 7 [sampleJob]
      false false [] []).dispatched = ["img.png", "img.png"]
    ∧ dictContains
        (process_jobs 1 sampleFs sampleFail "python" "demo_gradio.py" none 7 [sampleJob]
          false false [] []).failed "img.png" = true
    ∧ (process_jobs 2 sampleFs sampleFail "python" "demo_gradio.py" none 7 [sampleJob]
        false false [] []).commands.length = 2 :=
  ⟨rfl, rfl, rfl⟩

/-- Claim C1 (amended): a failed job is never added to the Progress
Ledger, so when every job of a batch fails the pending set is unchanged
and the Dispatcher re-dispatches those jobs on the next polling cycle
(automatic retry does occur for the Dispatcher); the Prompt Generator, by
contrast, invokes prompt generation at most once per enumerated image
within a run, so a failed or empty generation is never re-invoked in the
same run. -/
theorem no_automatic_retry_amended :
    (∀ (fs : List String) (oracle : List String → ExternRun)
       (pyExe demo_script : String) (od : Option String) (now : Nat)
       (pending : List Job) (st : DispatchState),
      (∀ j ∈ pending, (run_single_job fs oracle pyExe demo_script od j).ok = false) →
      (run_pending fs oracle pyExe demo_script od now pending st).progress = st.progress
      ∧ (run_pending fs oracle pyExe demo_script od now pending st).dispatched
          = st.dispatched ++ pending.map create_job_key)
    ∧ (∀ (fs : List String) (cwd : String) (api : String → ApiResponse)
        (rp : String → String) (b : Bool) (paths : List String)
        (doc : List PromptRecord) (dd ds : Int) (dry : Bool) (pt : String),
      paths.Nodup →
      (prompt_main fs cwd api rp b paths doc dd ds dry pt).generated.Nodup) := by
  constructor
  · intro fs oracle pyExe demo_script od now pending st hall
    exact ⟨run_pending_progress_of_all_fail fs oracle pyExe demo_script od now
        pending st hall,
      run_pending_dispatched fs oracle pyExe demo_script od now pending st⟩
  · intro fs cwd api rp b paths doc dd ds dry pt hnd
    exact prompt_main_generated_nodup fs cwd api rp b paths doc dd ds dry pt hnd

/-- Witness for the amended C1: a concrete all-failing batch leaves the
Progress Ledger unchanged while still dispatching every pending job, and a
concrete Prompt Generator run over distinct images generates at most once
per image. -/
theorem no_automatic_retry_amended_witness :
    ((run_pending sampleFs sampleFail "python" "demo_gradio.py" none 7 [sampleJob]
        (initState false [] [])).progress = (initState false [] []).progress
      ∧ (run_pending sampleFs sampleFail "python" "demo_gradio.py" none 7 [sampleJob]
          (initState false [] [])).dispatched
        = (initState false [] []).dispatched ++ [sampleJob].map create_job_key)
    ∧ (prompt_main [] "/c" sampleApiDown (fun p => p) true ["a.png", "b.png"] [] 5
        31337 false "general").generated.Nodup :=
  ⟨no_automatic_retry_amended.1 sampleFs sampleFail "python" "demo_gradio.py" none 7
      [sampleJob] (initState false [] []) (by decide),
    no_automatic_retry_amended.2 [] "/c" sampleApiDown (fun p => p) true
      ["a.png", "b.png"] [] 5 31337 false "general" (by decide)⟩

/-- Claim C3: mutual exclusion of the ledgers — whenever the Job Store's
keys are unique (the data-model invariant) and the ledgers loaded from
disk are exclusive, after any number of settled polling cycles no key is
in both the Progress Ledger and the Failure Ledger; and a job that
succeeds has its Progress entry added and any stale Failure entry removed
in the same outcome step. -/
theorem ledgers_mutually_exclusive (fuel : Nat) (fs : List String)
    (oracle : List String → ExternRun) (pyExe demo_script : String)
    (od : Option String) (now : Nat) (dry force : Bool) (jobs : List Job)
    (pfile : List (String × ProgressEntry)) (ffile : List (String × FailureEntry))
    (hnd : (jobs.map create_job_key).Nodup)
    (hex : ledgersExclusive pfile ffile = true) :
    ledgersExclusive
      (process_jobs fuel fs oracle pyExe demo_script od now jobs force dry
        pfile ffile).progress
      (process_jobs fuel fs oracle pyExe demo_script od now jobs force dry
        pfile ffile).failed = true
    ∧ (∀ (now2 : Nat) (st : DispatchState) (job : Job) (res : JobResult),
        res.ok = true →
        dictContains (record_outcome now2 job res st).progress (create_job_key job) = true
        ∧ dictContains (record_outcome now2 job res st).failed (create_job_key job)
            = false) := by
  constructor
  · rw [ledgersExclusive_iff]
    apply process_cycles_exclusive fs oracle pyExe demo_script od now dry jobs hnd fuel
    intro k hk
    by_cases hf : force = true
    · have hzero : (initState force pfile ffile).progress = [] := by
        simp [initState, hf]
      rw [hzero] at hk
      exact absurd hk (by simp [dictContains])
    · have hload : (initState force pfile ffile).progress = pfile := by
        simp [initState, hf]
      rw [hload] at hk
      exact (ledgersExclusive_iff pfile ffile).mp hex k hk
  · intro now2 st job res hok
    exact record_outcome_success now2 job res st hok

/-- Witness for C3: a concrete run with a unique-keyed Job Store and empty
initial ledgers, and a concrete successful outcome step. -/
theorem ledgers_mutually_exclusive_witness :
    ledgersExclusive
      (process_jobs 3 sampleFs sampleOk "python" "demo_gradio.py" none 7 [sampleJob]
        false false [] []).progress
      (process_jobs 3 sampleFs sampleOk "python" "demo_gradio.py" none 7 [sampleJob]
        false false [] []).failed = true
    ∧ (dictContains
        (record_outcome 7 sampleJob ⟨none, true, "Success"⟩
          (initState false [] [])).progress (create_job_key sampleJob) = true
      ∧ dictContains
          (record_outcome 7 sampleJob ⟨none, true, "Success"⟩
            (initState false [] [])).failed (create_job_key sampleJob) = false) :=
  ⟨(ledgers_mutually_exclusive 3 sampleFs sampleOk "python" "demo_gradio.py" none 7
      false false [sampleJob] [] [] (by decide) (by decide)).1,
    (ledgers_mutually_exclusive 3 sampleFs sampleOk "python" "demo_gradio.py" none 7
      false false [sampleJob] [] [] (by decide) (by decide)).2 7
      (initState false [] []) sampleJob ⟨none, true, "Success"⟩ rfl⟩

/-- Claim C4: idempotence of the Dispatcher — when a run without
force-reprocess terminates, the persisted Progress Ledger makes the
pending set of a second run over the unchanged Job Store empty, so the
second run performs zero external invocations and dispatches nothing, and
every job with a truthy key is already in the persisted Progress Ledger. -/
theorem dispatcher_idempotent (fuel fuel2 : Nat) (fs fs2 : List String)
    (oracle oracle2 : List String → ExternRun) (pyExe pyExe2 demo demo2 : String)
    (od od2 : Option String) (now now2 : Nat) (jobs : List Job)
    (pfile : List (String × ProgressEntry))
    (ffile ffile2 : List (String × FailureEntry))
    (h : (process_jobs fuel fs oracle pyExe demo od now jobs false false
        pfile ffile).finished = true) :
    pendingJobs jobs (persistedProgress pfile
        (process_jobs fuel fs oracle pyExe demo od now jobs false false pfile ffile)) = []
    ∧ (process_jobs fuel2 fs2 oracle2 pyExe2 demo2 od2 now2 jobs false false
        (persistedProgress pfile
          (process_jobs fuel fs oracle pyExe demo od now jobs false false pfile ffile))
        ffile2).commands = []
    ∧ (process_jobs fuel2 fs2 oracle2 pyExe2 demo2 od2 now2 jobs false false
        (persistedProgress pfile
          (process_jobs fuel fs oracle pyExe demo od now jobs false false pfile ffile))
        ffile2).dispatched = []
    ∧ (∀ j ∈ jobs, create_job_key j ≠ "" →
        dictContains
          (persistedProgress pfile
            (process_jobs fuel fs oracle pyExe demo od now jobs false false pfile ffile))
          (create_job_key j) = true) := by
  have hpers : persistedProgress pfile
      (process_jobs fuel fs oracle pyExe demo od now jobs false false pfile ffile)
      = (process_jobs fuel fs oracle pyExe demo od now jobs false false
          pfile ffile).progress :=
    process_cycles_flush pfile fs oracle pyExe demo od now false jobs fuel
      (initState false pfile ffile) rfl
  have hpend : pendingJobs jobs
      (process_jobs fuel fs oracle pyExe demo od now jobs false false
        pfile ffile).progress = [] :=
    process_cycles_finished_pending fs oracle pyExe demo od now jobs fuel
      (initState false pfile ffile) rfl h
  have hnp := process_cycles_no_pending fs2 oracle2 pyExe2 demo2 od2 now2 false jobs fuel2
    (persistedProgress pfile
      (process_jobs fuel fs oracle pyExe demo od now jobs false false pfile ffile))
    ffile2 (by rw [hpers]; exact hpend)
  refine ⟨by rw [hpers]; exact hpend, hnp.1, hnp.2, ?_⟩
  intro j hj hkey
  by_cases hc : dictContains
      (persistedProgress pfile
        (process_jobs fuel fs oracle pyExe demo od now jobs false false pfile ffile))
      (create_job_key j) = true
  · exact hc
  · exfalso
    have hcf : dictContains
        (persistedProgress pfile
          (process_jobs fuel fs oracle pyExe demo od now jobs false false pfile ffile))
        (create_job_key j) = false := (Bool.not_eq_true _) ▸ hc
    have hmem : j ∈ pendingJobs jobs
        (persistedProgress pfile
          (process_jobs fuel fs oracle pyExe demo od now jobs false false pfile ffile)) :=
      List.mem_filter.mpr ⟨hj, by rw [hcf]; simp [hkey]⟩
    rw [hpers] at hmem
    rw [hpend] at hmem
    exact absurd hmem (List.not_mem_nil j)

/-- Witness for C4: a two-cycle first run that completes one job, after
which the second run finds nothing pending and invokes nothing. -/
theorem dispatcher_idempotent_witness :
    pendingJobs [sampleJob] (persistedProgress []
        (process_jobs 2 sampleFs sampleOk "python" "demo_gradio.py" none 7 [sampleJob]
          false false [] [])) = []
    ∧ (process_jobs 1 sampleFs sampleOk "python" "demo_gradio.py" none 7 [sampleJob]
        false false
        (persistedProgress []
          (process_jobs 2 sampleFs sampleOk "python" "demo_gradio.py" none 7 [sampleJob]
            false false [] [])) []).commands = []
    ∧ (process_jobs 1 sampleFs sampleOk "python" "demo_gradio.py" none 7 [sampleJob]
        false false
        (persistedProgress []
          (process_jobs 2 sampleFs sampleOk "python" "demo_gradio.py" none 7 [sampleJob]
            false false [] [])) []).dispatched = []
    ∧ dictContains
        (persistedProgress []
          (process_jobs 2 sampleFs sampleOk "python" "demo_gradio.py" none 7 [sampleJob]
            false false [] []))
        (create_job_key sampleJob) = true :=
  ⟨(dispatcher_idempotent 2 1 sampleFs sampleFs sampleOk sampleOk "python" "python"
      "demo_gradio.py" "demo_gradio.py" none none 7 7 [sampleJob] [] [] [] (by decide)).1,
    (dispatcher_idempotent 2 1 sampleFs sampleFs sampleOk sampleOk "python" "python"
      "demo_gradio.py" "demo_gradio.py" none none 7 7 [sampleJob] [] [] [] (by decide)).2.1,
    (dispatcher_idempotent 2 1 sampleFs sampleFs sampleOk sampleOk "python" "python"
      "demo_gradio.py" "demo_gradio.py" none none 7 7 [sampleJob] [] [] [] (by decide)).2.2.1,
    (dispatcher_idempotent 2 1 sampleFs sampleFs sampleOk sampleOk "python" "python"
      "demo_gradio.py" "demo_gradio.py" none none 7 7 [sampleJob] [] [] [] (by decide)).2.2.2
      sampleJob (List.mem_cons_self _ _) (by decide)⟩
